import Mathlib

/-!
Shallow embedding of `flowvision/transforms/functional.py` (the transform
engine of the vision repository) together with proofs of the frozen claims
about it.

Images are modelled extensionally: a width, a height, and a pixel function on
integer coordinates.  Reads outside the bounds yield the constant fill 0,
which is exactly the semantics the spec assigns to the zero-padding that
`crop` performs implicitly.  The backend modules `functional_pil` /
`functional_tensor` are not part of the given sources, so the primitive
backends (`crop`, `pad`, `hflip`, `vflip`) are modelled from the spec; the
dispatch-level functions (`center_crop`, `five_crop`, `ten_crop`, `resize`,
`rotate`, `gaussian_blur`, `normalize`, `_get_inverse_affine_matrix`) are
translated from the source file.
-/

namespace Flowvision

/-- An image: a dense pixel grid of `width × height` integer-valued pixels.
Coordinate convention: `pix x y` with `x` running over the width
(`0 ≤ x < width`) and `y` over the height (`0 ≤ y < height`);
`(0,0)` is the top-left corner, as in the source. -/
structure Img where
  width : Nat
  height : Nat
  pix : Int → Int → Int

/-- Pixel read with the zero fill outside the bounds.  This is the value an
operation sees when it samples the image at `(x, y)`. -/
def Img.getPix (img : Img) (x y : Int) : Int :=
  if 0 ≤ x ∧ x < (img.width : Int) ∧ 0 ≤ y ∧ y < (img.height : Int) then
    img.pix x y
  else 0

/-- Extensional equality of images: same size and same in-bounds pixels. -/
def Img.equiv (a b : Img) : Prop :=
  a.width = b.width ∧ a.height = b.height ∧ ∀ x y : Int, a.getPix x y = b.getPix x y

/-- Modelled from the spec: the backend `pad` primitive in constant mode with
fill value 0 (the only mode the engine itself invokes, from `center_crop`).
Padding `(l, t, r, b)` prepends `l` columns, `t` rows and appends `r`
columns, `b` rows of fill. -/
def padConst (img : Img) (l t r b : Nat) : Img :=
  { width := img.width + l + r
    height := img.height + t + b
    pix := fun x y => img.getPix (x - l) (y - t) }

/-- Modelled from the spec: the backend `crop` primitive.  Returns the
`height × width` sub-region whose top-left corner is `(top, left)`; a box
extending beyond the source reads the zero-padded border, which is the
pad-then-crop composition the spec requires for constant fill 0. -/
def crop (img : Img) (top left : Int) (height width : Nat) : Img :=
  { width := width
    height := height
    pix := fun x y => img.getPix (x + left) (y + top) }

/-- Modelled from the spec: the backend horizontal flip — reverse the width
axis. -/
def hflip (img : Img) : Img :=
  { width := img.width
    height := img.height
    pix := fun x y => img.getPix ((img.width : Int) - 1 - x) y }

/-- Modelled from the spec: the backend vertical flip — reverse the height
axis. -/
def vflip (img : Img) : Img :=
  { width := img.width
    height := img.height
    pix := fun x y => img.getPix x ((img.height : Int) - 1 - y) }

/-- Python's `int(round(d / 2.0))` for a non-negative integer `d`: halve with
round-half-to-even (banker's rounding), which is what Python 3's `round`
does.  Exact for every integer `d` whose half is representable, which covers
all image dimensions. -/
def roundHalfEvenDiv2 (d : Nat) : Nat :=
  if d % 2 = 0 then d / 2
  else if (d / 2) % 2 = 0 then d / 2 else d / 2 + 1

/-- Translation of `center_crop` from the source (`functional.py`,
lines 552-588), with `output_size` already normalised to the pair
`(crop_height, crop_width)`.  If the requested size exceeds the source on
an axis the image is first padded with constant fill 0, splitting the
excess `e` as `e / 2` before and `(e + 1) / 2` after; if the padded image
matches the request exactly it is returned as is; otherwise the crop
offsets are `int(round((source - target) / 2.0))` on the (possibly padded)
sizes. -/
def centerCrop (img : Img) (outputSize : Nat × Nat) : Img :=
  match outputSize with
  | (cropHeight, cropWidth) =>
  if cropWidth > img.width ∨ cropHeight > img.height then
    let pl := if cropWidth > img.width then (cropWidth - img.width) / 2 else 0
    let pt := if cropHeight > img.height then (cropHeight - img.height) / 2 else 0
    let pr := if cropWidth > img.width then (cropWidth - img.width + 1) / 2 else 0
    let pb := if cropHeight > img.height then (cropHeight - img.height + 1) / 2 else 0
    let padded := padConst img pl pt pr pb
    if cropWidth = padded.width ∧ cropHeight = padded.height then padded
    else
      crop padded (roundHalfEvenDiv2 (padded.height - cropHeight))
        (roundHalfEvenDiv2 (padded.width - cropWidth)) cropHeight cropWidth
  else
    crop img (roundHalfEvenDiv2 (img.height - cropHeight))
      (roundHalfEvenDiv2 (img.width - cropWidth)) cropHeight cropWidth

/-- Translation of `five_crop` from the source (`functional.py`,
lines 663-711), with `size` already normalised to the two-element pair
`(crop_height, crop_width)`.  Raising `ValueError` is modelled as
`Except.error`; the success value is the list
`[tl, tr, bl, br, center]` in the source's order. -/
def fiveCrop (img : Img) (size : Nat × Nat) : Except String (List Img) :=
  match size with
  | (cropHeight, cropWidth) =>
  if cropWidth > img.width ∨ cropHeight > img.height then
    Except.error "Requested crop size is bigger than input size"
  else
    let tl := crop img 0 0 cropHeight cropWidth
    let tr := crop img 0 ((img.width : Int) - (cropWidth : Int)) cropHeight cropWidth
    let bl := crop img ((img.height : Int) - (cropHeight : Int)) 0 cropHeight cropWidth
    let br := crop img ((img.height : Int) - (cropHeight : Int))
      ((img.width : Int) - (cropWidth : Int)) cropHeight cropWidth
    let center := centerCrop img (cropHeight, cropWidth)
    Except.ok [tl, tr, bl, br, center]

/-- Translation of `ten_crop` from the source (`functional.py`,
lines 714-753), with `size` already normalised to the pair
`(crop_height, crop_width)`: `five_crop` of the image concatenated with
`five_crop` of its flip (vertical when `verticalFlip`, else horizontal). -/
def tenCrop (img : Img) (size : Nat × Nat) (verticalFlip : Bool) :
    Except String (List Img) :=
  match fiveCrop img size with
  | Except.error e => Except.error e
  | Except.ok firstFive =>
    let img2 := if verticalFlip then vflip img else hflip img
    match fiveCrop img2 size with
    | Except.error e => Except.error e
    | Except.ok secondFive => Except.ok (firstFive ++ secondFive)

/-- The closed interpolation enumeration from the source. -/
inductive InterpolationMode
  | nearest
  | bilinear
  | bicubic
  | box
  | hamming
  | lanczos
deriving DecidableEq, Repr

/-- The string payload of each `InterpolationMode` member. -/
def InterpolationMode.value : InterpolationMode → String
  | .nearest => "nearest"
  | .bilinear => "bilinear"
  | .bicubic => "bicubic"
  | .box => "box"
  | .hamming => "hamming"
  | .lanczos => "lanczos"

/-- Translation of `_interpolation_modes_from_int` (`functional.py`,
lines 42-51): the legacy integer code table.  A key miss raises `KeyError`,
modelled as `none`. -/
def interpolationModesFromInt (i : Int) : Option InterpolationMode :=
  if i = 0 then some InterpolationMode.nearest
  else if i = 2 then some InterpolationMode.bilinear
  else if i = 3 then some InterpolationMode.bicubic
  else if i = 4 then some InterpolationMode.box
  else if i = 5 then some InterpolationMode.hamming
  else if i = 1 then some InterpolationMode.lanczos
  else none

/-- Translation of `pil_modes_mapping` (`functional.py`, lines 54-61). -/
def pilModesMapping : InterpolationMode → Int
  | .nearest => 0
  | .bilinear => 2
  | .bicubic => 3
  | .box => 4
  | .hamming => 5
  | .lanczos => 1

/-- Tensor dtypes the embedding distinguishes. -/
inductive DType
  | float32
  | uint8
  | int32
deriving DecidableEq, Repr

/-- The array-backed representation: a dtype, a shape `[..., C, H, W]`, and
flat row-major data. -/
structure Tensor where
  dtype : DType
  shape : List Nat
  data : Nat → Rat

/-- An image value as the dispatch layer sees it: either the object-based
(PIL) representation or the array-backed (oneflow tensor) one. -/
inductive ImgVar
  | objectImg (i : Img)
  | arrayImg (t : Tensor)

/-- Modelled from the spec: `F_t._get_image_size` (the module is not among
the given sources) — the size `[w, h]` of an array-backed image read off the
trailing two axes of its shape. -/
def tensorImageSize (t : Tensor) : List Nat :=
  [t.shape.getD (t.shape.length - 1) 0, t.shape.getD (t.shape.length - 2) 0]

/-- The Python exceptions the engine raises, as a closed error type. -/
inductive PyErr
  | keyError
  | typeError (msg : String)
  | valueError (msg : String)
  | notImplementedError (msg : String)
deriving DecidableEq, Repr

/-- The deprecation warning text `resize` and `rotate` emit for a legacy
integer interpolation argument. -/
def interpolationDeprecationWarning : String :=
  "Argument interpolation should be of type InterpolationMode instead of int. Please, use InterpolationMode enum."

/-- An interpolation argument as the Python signature admits it: a legacy
integer code or an `InterpolationMode` member. -/
inductive InterpArg
  | legacy (i : Int)
  | mode (m : InterpolationMode)
deriving DecidableEq, Repr

/-- The backend invocation `resize` dispatches to.  The backend modules are
not among the given sources, so the call itself is the observable result:
which backend, with which size and which interpolation encoding (the PIL
integer code for object-based images, the mode's string value for
tensors). -/
inductive ResizeCall
  | pilResize (i : Img) (size : List Int) (interpolation : Int)
  | tensorResize (t : Tensor) (size : List Int) (interpolation : String)

/-- Translation of `resize` (`functional.py`, lines 432-472): a legacy
integer interpolation is converted through the table with a deprecation
warning; then the call dispatches on the representation variant.  The result
pairs the warnings emitted with the dispatched backend call. -/
def resize (img : ImgVar) (size : List Int) (interpolation : InterpArg) :
    Except PyErr (List String × ResizeCall) :=
  let dispatch : InterpolationMode → ResizeCall := fun m =>
    match img with
    | ImgVar.objectImg i => ResizeCall.pilResize i size (pilModesMapping m)
    | ImgVar.arrayImg t => ResizeCall.tensorResize t size m.value
  match interpolation with
  | InterpArg.legacy i =>
    match interpolationModesFromInt i with
    | none => Except.error PyErr.keyError
    | some m => Except.ok ([interpolationDeprecationWarning], dispatch m)
  | InterpArg.mode m => Except.ok ([], dispatch m)

/-- Channel index of a flat data offset for a shape `[..., C, H, W]`. -/
def normChannel (shape : List Nat) (n : Nat) : Nat :=
  let C := shape.getD (shape.length - 3) 1
  let H := shape.getD (shape.length - 2) 1
  let W := shape.getD (shape.length - 1) 1
  (n / (H * W)) % C

/-- Modelled from the spec / the oneflow primitives `sub_`/`div_` (not among
the given sources): the per-channel update `(x - mean[c]) / std[c]` with
`mean` and `std` reshaped to `(-1, 1, 1)`; a length-1 list broadcasts over
every channel. -/
def applyNormalize (t : Tensor) (mean std : List Rat) : Tensor :=
  { t with data := fun n =>
      let c := normChannel t.shape n
      let m := if mean.length = 1 then mean.getD 0 0 else mean.getD c 0
      let s := if std.length = 1 then std.getD 0 1 else std.getD c 1
      (t.data n - m) / s }

/-- Translation of `normalize` (`functional.py`, lines 370-429) on the
tensor path.  The pair returned is `(the call's result, the caller's tensor
after the call)`: Python's in-place mutation is modelled by state passing,
so the second component is `tensor` itself except when `inplace` is set and
the call succeeds (the source clones the input first whenever `inplace` is
false). -/
def normalize (tensor : Tensor) (mean std : List Rat) (inplace : Bool) :
    Except PyErr Tensor × Tensor :=
  if tensor.dtype ≠ DType.float32 then
    (Except.error (PyErr.typeError "Input tensor should be a float tensor"), tensor)
  else if tensor.shape.length < 3 then
    (Except.error (PyErr.valueError "Expected tensor to be a tensor image of size (..., C, H, W)"), tensor)
  else if std.any (fun s => decide (s = 0)) then
    (Except.error (PyErr.valueError "std evaluated to zero, leading to division by zero"), tensor)
  else
    let result := applyNormalize tensor mean std
    (Except.ok result, if inplace then result else tensor)

/-- The backend invocation `gaussian_blur` makes once validation passed:
the normalised kernel size and sigma handed to `F_t.gaussian_blur` (that
module is not among the given sources), and whether the input was
object-based (converted to a tensor and back). -/
structure GaussianBlurCall where
  kernelSize : List Int
  sigma : List Rat
  fromObject : Bool
deriving DecidableEq, Repr

/-- Translation of `gaussian_blur` (`functional.py`, lines 1014-1092):
normalise `kernel_size` (scalar duplicates to both axes; a sequence must
have length 2 and every entry odd and non-negative), derive `sigma` as
`0.15 * ksize + 0.35` per axis when omitted, normalise it (scalar or
length-1 sequence duplicates; length must be 2; entries positive), then
dispatch to the backend. -/
def gaussianBlur (img : ImgVar) (kernelSize : Sum Int (List Int))
    (sigma : Option (Sum Rat (List Rat))) : Except PyErr GaussianBlurCall :=
  let ks : List Int :=
    match kernelSize with
    | Sum.inl k => [k, k]
    | Sum.inr l => l
  if ks.length ≠ 2 then
    Except.error (PyErr.valueError "If kernel_size is a sequence its length should be 2")
  else if ks.any (fun k => decide (k % 2 = 0 ∨ k < 0)) then
    Except.error (PyErr.valueError "kernel_size should have odd and positive integers")
  else
    let sigma1 : Sum Rat (List Rat) :=
      match sigma with
      | none => Sum.inr (ks.map fun k : Int => ((k : Rat) * (15 / 100) + 35 / 100))
      | some s => s
    let sigma2 : List Rat :=
      match sigma1 with
      | Sum.inl s => [s, s]
      | Sum.inr l => if l.length = 1 then [l.getD 0 0, l.getD 0 0] else l
    if sigma2.length ≠ 2 then
      Except.error (PyErr.valueError "If sigma is a sequence, its length should be 2")
    else if sigma2.any (fun s => decide (s ≤ 0)) then
      Except.error (PyErr.valueError "sigma should have positive values")
    else
      Except.ok
        { kernelSize := ks
          sigma := sigma2
          fromObject := match img with | ImgVar.objectImg _ => true | ImgVar.arrayImg _ => false }

/-- Python `math.radians`: degrees to radians. -/
noncomputable def radians (deg : ℝ) : ℝ := deg * Real.pi / 180

/-- Translation of `_get_inverse_affine_matrix` (`functional.py`,
lines 850-901), step by step: build the unscaled inverse rotation-shear
entries `a b c d`, form `[d, -b, 0, -c, a, 0]`, divide every entry by
`scale`, then add the center/translation corrections to the entries at
indices 2 and 5, and finally the center itself. -/
noncomputable def getInverseAffineMatrix (center : ℝ × ℝ) (angle : ℝ)
    (translate : ℝ × ℝ) (scale : ℝ) (shear : ℝ × ℝ) : List ℝ :=
  let rot := radians angle
  let sx := radians shear.1
  let sy := radians shear.2
  let cx := center.1
  let cy := center.2
  let tx := translate.1
  let ty := translate.2
  let a := Real.cos (rot - sy) / Real.cos sy
  let b := -Real.cos (rot - sy) * Real.tan sx / Real.cos sy - Real.sin rot
  let c := Real.sin (rot - sy) / Real.cos sy
  let d := -Real.sin (rot - sy) * Real.tan sx / Real.cos sy + Real.cos rot
  let m0 := d / scale
  let m1 := -b / scale
  let m2 := 0 / scale
  let m3 := -c / scale
  let m4 := a / scale
  let m5 := 0 / scale
  let m2a := m2 + (m0 * (-cx - tx) + m1 * (-cy - ty))
  let m5a := m5 + (m3 * (-cx - tx) + m4 * (-cy - ty))
  let m2b := m2a + cx
  let m5b := m5a + cy
  [m0, m1, m2b, m3, m4, m5b]

/-- The interpolation-related arguments of `rotate` are valid when every
legacy integer code used (the deprecated `resample`, or an integer
`interpolation` when `resample` is absent) is a key of the legacy table. -/
def rotateParamsValid (interpolation : InterpArg) (resample : Option Int) : Bool :=
  match resample with
  | some r => (interpolationModesFromInt r).isSome
  | none =>
    match interpolation with
    | InterpArg.legacy i => (interpolationModesFromInt i).isSome
    | InterpArg.mode _ => true

/-- The deprecation warning `rotate` emits for the legacy `resample`
argument. -/
def resampleDeprecationWarning : String :=
  "Argument resample is deprecated and will be removed since v0.10.0. Please, use interpolation instead"

/-- The backend invocation the object-based `rotate` path dispatches to
(`F_pil.rotate` is not among the given sources, so the call is the
observable result). -/
inductive RotateOut
  | pilRotate (i : Img) (angle : ℝ) (interpolation : Int) (expand : Bool)
      (center : Option (ℝ × ℝ)) (fill : Option (List ℝ))

/-- Translation of `rotate` (`functional.py`, lines 904-986): legacy
`resample` and integer interpolation arguments convert through the table
with deprecation warnings; object-based images dispatch to the PIL backend;
for array-backed images the inverse affine matrix is computed and then the
function unconditionally raises `NotImplementedError` — the intentionally
unimplemented terminal state the spec calls
`UnsupportedOperation{primitive, variant}`. -/
noncomputable def rotate (img : ImgVar) (angle : ℝ) (interpolation : InterpArg)
    (expand : Bool) (center : Option (ℝ × ℝ)) (fill : Option (List ℝ))
    (resample : Option Int) : Except PyErr (List String × RotateOut) :=
  let step1 : Except PyErr (List String × InterpArg) :=
    match resample with
    | some r =>
      match interpolationModesFromInt r with
      | none => Except.error PyErr.keyError
      | some m => Except.ok ([resampleDeprecationWarning], InterpArg.mode m)
    | none => Except.ok ([], interpolation)
  match step1 with
  | Except.error e => Except.error e
  | Except.ok (ws, interp1) =>
    let step2 : Except PyErr (List String × InterpolationMode) :=
      match interp1 with
      | InterpArg.legacy i =>
        match interpolationModesFromInt i with
        | none => Except.error PyErr.keyError
        | some m => Except.ok (ws ++ [interpolationDeprecationWarning], m)
      | InterpArg.mode m => Except.ok (ws, m)
    match step2 with
    | Except.error e => Except.error e
    | Except.ok (ws2, m) =>
      match img with
      | ImgVar.objectImg i =>
        Except.ok (ws2, RotateOut.pilRotate i angle (pilModesMapping m) expand center fill)
      | ImgVar.arrayImg t =>
        let centerF : ℝ × ℝ :=
          match center with
          | none => (0, 0)
          | some (c1, c2) =>
            (1.0 * (c1 - (tensorImageSize t).getD 0 0 * 0.5),
             1.0 * (c2 - (tensorImageSize t).getD 1 0 * 0.5))
        let _matrix := getInverseAffineMatrix centerF (-angle) (0, 0) 1 (0, 0)
        Except.error (PyErr.notImplementedError "Tensor rotate is not implemented yet!")

/-- A concrete 3×3 object-based image used by the witness statements. -/
def testImg : Img :=
  { width := 3, height := 3, pix := fun x y => x + 10 * y }

/-- A concrete float tensor of shape `[1, 2, 2]` used by the witness
statements. -/
def testTensor : Tensor :=
  { dtype := DType.float32, shape := [1, 2, 2], data := fun n => (n : Rat) }

section Lemmas

/-- The relation `Img.equiv` is reflexive. -/
theorem Img.equiv_refl (a : Img) : a.equiv a :=
  ⟨rfl, rfl, fun _ _ => rfl⟩

/-- The relation `Img.equiv` is symmetric. -/
theorem Img.equiv_symm {a b : Img} (h : a.equiv b) : b.equiv a :=
  ⟨h.1.symm, h.2.1.symm, fun x y => (h.2.2 x y).symm⟩

/-- Reading a cropped image is reading the source shifted, inside the crop
box. -/
theorem getPix_crop (img : Img) (top left : Int) (h w : Nat) (x y : Int) :
    (crop img top left h w).getPix x y =
      if 0 ≤ x ∧ x < (w : Int) ∧ 0 ≤ y ∧ y < (h : Int) then
        img.getPix (x + left) (y + top)
      else 0 := rfl

/-- The full-size crop at the origin is the image itself. -/
theorem crop_full_equiv (img : Img) :
    (crop img 0 0 img.height img.width).equiv img := by
  refine ⟨rfl, rfl, fun x y => ?_⟩
  rw [getPix_crop]
  split
  · simp
  · rename_i hout
    rw [Img.getPix, if_neg (fun hc => hout ⟨hc.1, hc.2.1, hc.2.2.1, hc.2.2.2⟩)]

/-- The function `centerCrop` always returns an image of exactly the requested size. -/
theorem centerCrop_size (img : Img) (h w : Nat) :
    (centerCrop img (h, w)).width = w ∧ (centerCrop img (h, w)).height = h := by
  simp only [centerCrop]
  by_cases hc : w > img.width ∨ h > img.height
  · rw [if_pos hc]
    generalize padConst img (if w > img.width then (w - img.width) / 2 else 0)
        (if h > img.height then (h - img.height) / 2 else 0)
        (if w > img.width then (w - img.width + 1) / 2 else 0)
        (if h > img.height then (h - img.height + 1) / 2 else 0) = P
    split
    · rename_i hEq
      exact ⟨hEq.1.symm, hEq.2.symm⟩
    · exact ⟨rfl, rfl⟩
  · rw [if_neg hc]
    exact ⟨rfl, rfl⟩

/-- The full-size center crop is the image itself. -/
theorem centerCrop_full_equiv (img : Img) :
    (centerCrop img (img.height, img.width)).equiv img := by
  have hc : ¬(img.width > img.width ∨ img.height > img.height) := by omega
  simp only [centerCrop]
  rw [if_neg hc, Nat.sub_self, Nat.sub_self]
  exact crop_full_equiv img

/-- The function `fiveCrop` on the oversized side: the validation error. -/
theorem fiveCrop_error_of (img : Img) (h w : Nat)
    (hc : w > img.width ∨ h > img.height) :
    fiveCrop img (h, w) = Except.error "Requested crop size is bigger than input size" := by
  simp only [fiveCrop]
  rw [if_pos hc]

/-- The function `fiveCrop` on the valid side: the five crops, in order. -/
theorem fiveCrop_ok_of (img : Img) (h w : Nat)
    (hc : ¬(w > img.width ∨ h > img.height)) :
    fiveCrop img (h, w) = Except.ok
      [crop img 0 0 h w,
       crop img 0 ((img.width : Int) - (w : Int)) h w,
       crop img ((img.height : Int) - (h : Int)) 0 h w,
       crop img ((img.height : Int) - (h : Int)) ((img.width : Int) - (w : Int)) h w,
       centerCrop img (h, w)] := by
  simp only [fiveCrop]
  rw [if_neg hc]

end Lemmas

/-- C9: for every tensor input, `normalize` with `inplace = false` leaves the
caller's tensor unchanged — on success the result is a fresh tensor and on
every error path (wrong dtype, fewer than 3 dimensions, zero std) the input
is untouched; the second component of the model's result is the caller's
tensor after the call. -/
theorem normalize_not_inplace_never_mutates (t : Tensor) (mean std : List Rat) :
    (normalize t mean std false).2 = t := by
  unfold normalize
  split
  · rfl
  · split
    · rfl
    · split
      · rfl
      · simp

/-- C6: in `gaussian_blur`, when `sigma` is omitted the sigma used for each
axis is `0.15 * ksize + 0.35` with `ksize` that axis's kernel size — both
for a two-element kernel size and for a scalar one (which covers both axes
with the same value). -/
theorem gaussianBlur_default_sigma (img : ImgVar) (k1 k2 : Int)
    (h1 : k1 % 2 = 1) (h1p : 0 < k1) (h2 : k2 % 2 = 1) (h2p : 0 < k2) :
    (gaussianBlur img (Sum.inr [k1, k2]) none).map GaussianBlurCall.sigma =
      Except.ok [(k1 : Rat) * (15 / 100) + 35 / 100, (k2 : Rat) * (15 / 100) + 35 / 100]
    ∧ (gaussianBlur img (Sum.inl k1) none).map GaussianBlurCall.sigma =
      Except.ok [(k1 : Rat) * (15 / 100) + 35 / 100, (k1 : Rat) * (15 / 100) + 35 / 100] := by
  have hq1 : (1 : Rat) ≤ (k1 : Rat) := by exact_mod_cast h1p
  have hq2 : (1 : Rat) ≤ (k2 : Rat) := by exact_mod_cast h2p
  constructor
  · simp only [gaussianBlur]
    split
    · rename_i hlen
      exact absurd rfl hlen
    · split
      · rename_i hany
        simp only [List.any_cons, List.any_nil, Bool.or_false, Bool.or_eq_true,
          decide_eq_true_eq] at hany
        omega
      · split
        · rename_i hslen
          simp at hslen
        · split
          · rename_i hslen2
            simp at hslen2
          · split
            · rename_i hsany
              simp only [List.map_cons, List.map_nil, List.length_cons, List.length_nil,
                List.any_cons, List.any_nil, Bool.or_false, Bool.or_eq_true,
                decide_eq_true_eq] at hsany
              rcases hsany with hs | hs <;> nlinarith
            · simp [Except.map]
  · simp only [gaussianBlur]
    split
    · rename_i hlen
      exact absurd rfl hlen
    · split
      · rename_i hany
        simp only [List.any_cons, List.any_nil, Bool.or_false, Bool.or_eq_true,
          decide_eq_true_eq] at hany
        omega
      · split
        · rename_i hslen
          simp at hslen
        · split
          · rename_i hslen2
            simp at hslen2
          · split
            · rename_i hsany
              simp only [List.map_cons, List.map_nil, List.length_cons, List.length_nil,
                List.any_cons, List.any_nil, Bool.or_false, Bool.or_eq_true,
                decide_eq_true_eq] at hsany
              rcases hsany with hs | hs <;> nlinarith
            · simp [Except.map]

/-- C7: `gaussian_blur` rejects any kernel size whose axes are not all
positive odd integers with a `ValueError`, returned before any pixel work
(no backend call is produced) — both for a two-element kernel size and for
a scalar one. -/
theorem gaussianBlur_invalid_kernel_rejected (img : ImgVar) (ks : List Int)
    (sigma : Option (Sum Rat (List Rat))) (k : Int)
    (hlen : ks.length = 2) (hk : k ∈ ks) (hbad : ¬(k % 2 = 1 ∧ 0 < k)) :
    gaussianBlur img (Sum.inr ks) sigma =
      Except.error (PyErr.valueError "kernel_size should have odd and positive integers")
    ∧ ∀ k' : Int, ¬(k' % 2 = 1 ∧ 0 < k') →
      gaussianBlur img (Sum.inl k') sigma =
        Except.error (PyErr.valueError "kernel_size should have odd and positive integers") := by
  constructor
  · simp only [gaussianBlur]
    split
    · rename_i hl
      exact absurd hlen hl
    · split
      · rfl
      · rename_i hany
        rw [Bool.not_eq_true, List.any_eq_false] at hany
        have := hany k hk
        simp only [decide_eq_true_eq] at this
        omega
  · intro k' hbad'
    simp only [gaussianBlur]
    split
    · rename_i hl
      exact absurd rfl hl
    · split
      · rfl
      · rename_i hany
        rw [Bool.not_eq_true, List.any_eq_false] at hany
        have := hany k' (by simp)
        simp only [decide_eq_true_eq] at this
        omega

/-- C8: every legacy integer interpolation code is accepted by `resize`,
mapped through the table 0 → NEAREST, 1 → LANCZOS, 2 → BILINEAR,
3 → BICUBIC, 4 → BOX, 5 → HAMMING; a deprecation warning is emitted and
`resize` otherwise behaves exactly as if called with the mapped
`InterpolationMode`. -/
theorem resize_legacy_int_codes :
    (∀ (img : ImgVar) (size : List Int) (i : Int) (m : InterpolationMode),
        interpolationModesFromInt i = some m →
        resize img size (InterpArg.legacy i) =
          (resize img size (InterpArg.mode m)).map
            (fun p => (interpolationDeprecationWarning :: p.1, p.2)))
    ∧ interpolationModesFromInt 0 = some InterpolationMode.nearest
    ∧ interpolationModesFromInt 1 = some InterpolationMode.lanczos
    ∧ interpolationModesFromInt 2 = some InterpolationMode.bilinear
    ∧ interpolationModesFromInt 3 = some InterpolationMode.bicubic
    ∧ interpolationModesFromInt 4 = some InterpolationMode.box
    ∧ interpolationModesFromInt 5 = some InterpolationMode.hamming := by
  refine ⟨?_, by decide, by decide, by decide, by decide, by decide, by decide⟩
  intro img size i m h
  simp [resize, h, Except.map]

/-- Witness for C6 at the concrete kernel `[3, 5]` (and scalar `3`). -/
theorem gaussianBlur_default_sigma_witness :
    (gaussianBlur (ImgVar.arrayImg testTensor) (Sum.inr [3, 5]) none).map GaussianBlurCall.sigma =
      Except.ok [(3 : Rat) * (15 / 100) + 35 / 100, (5 : Rat) * (15 / 100) + 35 / 100]
    ∧ (gaussianBlur (ImgVar.arrayImg testTensor) (Sum.inl 3) none).map GaussianBlurCall.sigma =
      Except.ok [(3 : Rat) * (15 / 100) + 35 / 100, (3 : Rat) * (15 / 100) + 35 / 100] :=
  gaussianBlur_default_sigma (ImgVar.arrayImg testTensor) 3 5
    (by decide) (by decide) (by decide) (by decide)

/-- Witness for C7 at the concrete kernel `[4, 3]` (axis 4 is even). -/
theorem gaussianBlur_invalid_kernel_rejected_witness :
    gaussianBlur (ImgVar.objectImg testImg) (Sum.inr [4, 3]) none =
      Except.error (PyErr.valueError "kernel_size should have odd and positive integers")
    ∧ ∀ k' : Int, ¬(k' % 2 = 1 ∧ 0 < k') →
      gaussianBlur (ImgVar.objectImg testImg) (Sum.inl k') none =
        Except.error (PyErr.valueError "kernel_size should have odd and positive integers") :=
  gaussianBlur_invalid_kernel_rejected (ImgVar.objectImg testImg) [4, 3] none 4
    (by decide) (by decide) (by decide)

/-- Witness for C8 at the concrete legacy code `3` (BICUBIC). -/
theorem resize_legacy_int_codes_witness :
    resize (ImgVar.objectImg testImg) [2, 2] (InterpArg.legacy 3) =
      (resize (ImgVar.objectImg testImg) [2, 2] (InterpArg.mode InterpolationMode.bicubic)).map
        (fun p => (interpolationDeprecationWarning :: p.1, p.2)) :=
  resize_legacy_int_codes.1 (ImgVar.objectImg testImg) [2, 2] 3 InterpolationMode.bicubic
    (by decide)

/-- C2: the inverse affine matrix builder returns `[d, -b, 0, -c, a, 0]`
with `a = cos(rot-sy)/cos(sy)`, `b = -cos(rot-sy)·tan(sx)/cos(sy) - sin(rot)`,
`c = sin(rot-sy)/cos(sy)`, `d = -sin(rot-sy)·tan(sx)/cos(sy) + cos(rot)`
(angles in radians), every entry divided by `scale` and the translation
entries (indices 2 and 5) corrected by the center and translation terms;
in particular the all-zero parameters with scale 1 yield the identity
matrix `[1, 0, 0, 0, 1, 0]`. -/
theorem getInverseAffineMatrix_formula_and_identity :
    (∀ (center : ℝ × ℝ) (angle : ℝ) (translate : ℝ × ℝ) (scale : ℝ) (shear : ℝ × ℝ),
      ∃ a b c d : ℝ,
        a = Real.cos (radians angle - radians shear.2) / Real.cos (radians shear.2) ∧
        b = -Real.cos (radians angle - radians shear.2) * Real.tan (radians shear.1) /
              Real.cos (radians shear.2) - Real.sin (radians angle) ∧
        c = Real.sin (radians angle - radians shear.2) / Real.cos (radians shear.2) ∧
        d = -Real.sin (radians angle - radians shear.2) * Real.tan (radians shear.1) /
              Real.cos (radians shear.2) + Real.cos (radians angle) ∧
        getInverseAffineMatrix center angle translate scale shear =
          [d / scale, -b / scale,
           0 / scale + (d / scale * (-center.1 - translate.1) +
             -b / scale * (-center.2 - translate.2)) + center.1,
           -c / scale, a / scale,
           0 / scale + (-c / scale * (-center.1 - translate.1) +
             a / scale * (-center.2 - translate.2)) + center.2])
    ∧ getInverseAffineMatrix (0, 0) 0 (0, 0) 1 (0, 0) = [1, 0, 0, 0, 1, 0] := by
  constructor
  · intro center angle translate scale shear
    exact ⟨_, _, _, _, rfl, rfl, rfl, rfl, rfl⟩
  · simp [getInverseAffineMatrix, radians]

/-- C3: for every array-backed image and any valid parameters, `rotate`
never returns a rotated image — after computing the inverse affine matrix it
fails with the typed unsupported-variant error (`NotImplementedError` in the
source, `UnsupportedOperation{rotate, array}` in the spec's taxonomy), with
no pixel output produced. -/
theorem rotate_tensor_unsupported (t : Tensor) (angle : ℝ) (interpolation : InterpArg)
    (expand : Bool) (center : Option (ℝ × ℝ)) (fill : Option (List ℝ))
    (resample : Option Int)
    (hvalid : rotateParamsValid interpolation resample = true) :
    rotate (ImgVar.arrayImg t) angle interpolation expand center fill resample =
      Except.error (PyErr.notImplementedError "Tensor rotate is not implemented yet!") := by
  cases resample with
  | some r =>
    simp only [rotateParamsValid] at hvalid
    obtain ⟨m, hm⟩ := Option.isSome_iff_exists.mp hvalid
    simp [rotate, hm]
  | none =>
    cases interpolation with
    | legacy i =>
      simp only [rotateParamsValid] at hvalid
      obtain ⟨m, hm⟩ := Option.isSome_iff_exists.mp hvalid
      simp [rotate, hm]
    | mode m =>
      simp [rotate]

/-- Witness for C3 at a concrete tensor, angle 0 and NEAREST mode. -/
theorem rotate_tensor_unsupported_witness :
    rotate (ImgVar.arrayImg testTensor) 0 (InterpArg.mode InterpolationMode.nearest)
      false none none none =
      Except.error (PyErr.notImplementedError "Tensor rotate is not implemented yet!") :=
  rotate_tensor_unsupported testTensor 0 (InterpArg.mode InterpolationMode.nearest)
    false none none none (by decide)

/-- C4: `five_crop(img, (h, w))` raises the size-mismatch validation error
exactly when `h` exceeds the image height or `w` exceeds the image width
(it never auto-pads), and otherwise returns exactly 5 images each of shape
`(h, w)`. -/
theorem fiveCrop_error_iff_and_shapes (img : Img) (h w : Nat) :
    ((∃ e, fiveCrop img (h, w) = Except.error e) ↔ (h > img.height ∨ w > img.width))
    ∧ ∀ l, fiveCrop img (h, w) = Except.ok l →
        l.length = 5 ∧ ∀ t ∈ l, t.width = w ∧ t.height = h := by
  constructor
  · constructor
    · rintro ⟨e, he⟩
      by_cases hc : w > img.width ∨ h > img.height
      · omega
      · rw [fiveCrop_ok_of img h w hc] at he
        simp at he
    · intro hcond
      exact ⟨_, fiveCrop_error_of img h w (by omega)⟩
  · intro l hl
    by_cases hc : w > img.width ∨ h > img.height
    · rw [fiveCrop_error_of img h w hc] at hl
      simp at hl
    · rw [fiveCrop_ok_of img h w hc] at hl
      injection hl with hl
      subst hl
      refine ⟨rfl, ?_⟩
      intro t ht
      simp only [List.mem_cons, List.not_mem_nil, or_false] at ht
      rcases ht with rfl | rfl | rfl | rfl | rfl
      · exact ⟨rfl, rfl⟩
      · exact ⟨rfl, rfl⟩
      · exact ⟨rfl, rfl⟩
      · exact ⟨rfl, rfl⟩
      · exact centerCrop_size img h w

/-- Witness for C4: the 2×2 crops of the concrete 3×3 image. -/
theorem fiveCrop_error_iff_and_shapes_witness :
    ([crop testImg 0 0 2 2,
      crop testImg 0 ((testImg.width : Int) - (2 : Int)) 2 2,
      crop testImg ((testImg.height : Int) - (2 : Int)) 0 2 2,
      crop testImg ((testImg.height : Int) - (2 : Int)) ((testImg.width : Int) - (2 : Int)) 2 2,
      centerCrop testImg (2, 2)].length = 5
     ∧ ∀ t ∈ [crop testImg 0 0 2 2,
        crop testImg 0 ((testImg.width : Int) - (2 : Int)) 2 2,
        crop testImg ((testImg.height : Int) - (2 : Int)) 0 2 2,
        crop testImg ((testImg.height : Int) - (2 : Int)) ((testImg.width : Int) - (2 : Int)) 2 2,
        centerCrop testImg (2, 2)], t.width = 2 ∧ t.height = 2) :=
  (fiveCrop_error_iff_and_shapes testImg 2 2).2
    [crop testImg 0 0 2 2,
     crop testImg 0 ((testImg.width : Int) - (2 : Int)) 2 2,
     crop testImg ((testImg.height : Int) - (2 : Int)) 0 2 2,
     crop testImg ((testImg.height : Int) - (2 : Int)) ((testImg.width : Int) - (2 : Int)) 2 2,
     centerCrop testImg (2, 2)]
    (fiveCrop_ok_of testImg 2 2 (by decide))

/-- C10: `five_crop` at the crop size exactly equal to the image size
succeeds (the size check is a strict inequality) and returns five images
each equal to the full original image. -/
theorem fiveCrop_full_size_identity (img : Img) :
    ∃ tl tr bl br c, fiveCrop img (img.height, img.width) = Except.ok [tl, tr, bl, br, c]
      ∧ tl.equiv img ∧ tr.equiv img ∧ bl.equiv img ∧ br.equiv img ∧ c.equiv img := by
  have hc : ¬(img.width > img.width ∨ img.height > img.height) := by omega
  have hz : (img.width : Int) - (img.width : Int) = 0 := sub_self _
  have hz2 : (img.height : Int) - (img.height : Int) = 0 := sub_self _
  refine ⟨_, _, _, _, _, fiveCrop_ok_of img img.height img.width hc, ?_, ?_, ?_, ?_, ?_⟩
  · exact crop_full_equiv img
  · rw [hz]
    exact crop_full_equiv img
  · rw [hz2]
    exact crop_full_equiv img
  · rw [hz, hz2]
    exact crop_full_equiv img
  · exact centerCrop_full_equiv img

/-- C5: `ten_crop(img, size, vertical_flip)` returns exactly 10 images:
`five_crop` of the image concatenated with `five_crop` of the flipped image
(hflip unless `vertical_flip`, else vflip), in that fixed order. -/
theorem tenCrop_concat (img : Img) (h w : Nat) (vf : Bool)
    (hh : h ≤ img.height) (hw : w ≤ img.width) :
    ∃ l1 l2, fiveCrop img (h, w) = Except.ok l1
      ∧ fiveCrop (if vf then vflip img else hflip img) (h, w) = Except.ok l2
      ∧ tenCrop img (h, w) vf = Except.ok (l1 ++ l2)
      ∧ l1.length = 5 ∧ l2.length = 5 := by
  have hc : ¬(w > img.width ∨ h > img.height) := by omega
  have hfw : (if vf then vflip img else hflip img).width = img.width := by
    cases vf <;> rfl
  have hfh : (if vf then vflip img else hflip img).height = img.height := by
    cases vf <;> rfl
  have hc2 : ¬(w > (if vf then vflip img else hflip img).width
      ∨ h > (if vf then vflip img else hflip img).height) := by
    rw [hfw, hfh]
    omega
  refine ⟨_, _, fiveCrop_ok_of img h w hc,
    fiveCrop_ok_of (if vf then vflip img else hflip img) h w hc2, ?_, rfl, rfl⟩
  simp only [tenCrop, fiveCrop_ok_of img h w hc,
    fiveCrop_ok_of (if vf then vflip img else hflip img) h w hc2]

/-- Witness for C5 at the concrete 3×3 image, size (2, 2), horizontal
flip. -/
theorem tenCrop_concat_witness :
    ∃ l1 l2, fiveCrop testImg (2, 2) = Except.ok l1
      ∧ fiveCrop (if false then vflip testImg else hflip testImg) (2, 2) = Except.ok l2
      ∧ tenCrop testImg (2, 2) false = Except.ok (l1 ++ l2)
      ∧ l1.length = 5 ∧ l2.length = 5 :=
  tenCrop_concat testImg 2 2 false (by decide) (by decide)

/-- C1: when the requested height or width exceeds the source,
`center_crop` first pads with constant fill 0, splitting each axis's excess
as `excess / 2` on the low side and `excess - excess / 2` on the high side
(odd remainder to the trailing side), then crops at offsets
`round((source - target) / 2.0)` with round-half-to-even on the padded
sizes; the returned image has exactly the requested output size. -/
theorem centerCrop_pad_then_crop (img : Img) (h w pl pt pr pb : Nat)
    (hexc : h > img.height ∨ w > img.width)
    (hpl : pl = if w > img.width then (w - img.width) / 2 else 0)
    (hpt : pt = if h > img.height then (h - img.height) / 2 else 0)
    (hpr : pr = if w > img.width then (w - img.width) - (w - img.width) / 2 else 0)
    (hpb : pb = if h > img.height then (h - img.height) - (h - img.height) / 2 else 0) :
    (centerCrop img (h, w)).width = w ∧ (centerCrop img (h, w)).height = h ∧
    (centerCrop img (h, w)).equiv
      (crop (padConst img pl pt pr pb)
        (roundHalfEvenDiv2 ((padConst img pl pt pr pb).height - h))
        (roundHalfEvenDiv2 ((padConst img pl pt pr pb).width - w)) h w) := by
  refine ⟨(centerCrop_size img h w).1, (centerCrop_size img h w).2, ?_⟩
  have hpr' : pr = if w > img.width then (w - img.width + 1) / 2 else 0 := by
    rw [hpr]
    split <;> omega
  have hpb' : pb = if h > img.height then (h - img.height + 1) / 2 else 0 := by
    rw [hpb]
    split <;> omega
  subst hpl hpt hpr' hpb'
  have hc : w > img.width ∨ h > img.height := by omega
  simp only [centerCrop]
  rw [if_pos hc]
  generalize padConst img (if w > img.width then (w - img.width) / 2 else 0)
      (if h > img.height then (h - img.height) / 2 else 0)
      (if w > img.width then (w - img.width + 1) / 2 else 0)
      (if h > img.height then (h - img.height + 1) / 2 else 0) = P
  split
  · rename_i hEq
    obtain ⟨hW, hH⟩ := hEq
    rw [hW, hH, Nat.sub_self, Nat.sub_self]
    exact Img.equiv_symm (crop_full_equiv P)
  · exact Img.equiv_refl _

/-- Witness for C1: the 3×3 image center-cropped to (5, 2) — the height is
padded to 5, the width cropped from 3 to 2. -/
theorem centerCrop_pad_then_crop_witness :
    (centerCrop testImg (5, 2)).width = 2 ∧ (centerCrop testImg (5, 2)).height = 5 ∧
    (centerCrop testImg (5, 2)).equiv
      (crop (padConst testImg 0 1 0 1)
        (roundHalfEvenDiv2 ((padConst testImg 0 1 0 1).height - 5))
        (roundHalfEvenDiv2 ((padConst testImg 0 1 0 1).width - 2)) 5 2) :=
  centerCrop_pad_then_crop testImg 5 2 0 1 0 1 (by decide)
    (by decide) (by decide) (by decide) (by decide)

end Flowvision
